import Mathlib

set_option maxRecDepth 8192

/-!
Shallow embedding of the SpaceKit service dispatch and relay-registry core.

This file embeds the connection dispatch and relay-registry subsystem of
`src/service/index.js` (class `SpaceKitService`) in Lean 4 and proves the
specification's claims about it.

Modelling conventions:
* The JavaScript `Map` field `this.relays` (hostname -> WebSocketRelay) is
  modelled as an association list `Registry` with `lookup` / `set` / `delete`
  matching `Map.prototype.get` / `set` / `delete` on the observations the
  service makes (the service never iterates the map, so insertion order is
  unobservable).
* A `WebSocketRelay` is identified by a numeric id; the service compares
  relays only by reference identity, which the id models.
* Side effects on a socket (forwarding to the API/Web HTTPS servers,
  `relay.addSocket(socket, hostname, port)`, `socket.end(response)`) are
  reified as an `Action` value returned by the dispatch functions.
* The asynchronous environment of the handshake (the database query callback
  result and the bcrypt comparison callback result) is passed in as explicit
  `Except` values; `webSocket.close()` and the absence of any application
  message are reified as fields of `AuthResult`.
* Because the database and bcrypt callbacks run asynchronously, the registry
  seen by the initial duplicate snapshot check (`authDuplicateCheck`, line
  153/161 of the source) can differ from the registry current when
  registration runs (`authAfterDuplicateCheck`, the body of the nested
  callbacks, lines 168-194).  The two phases are therefore separate
  functions, each taking the registry current at its point of execution;
  `authenticateRelayConnection` composes them for the interleaving-free case.
-/

namespace SpaceKit

/-- Service configuration: `config.host`, `config.api`, `config.web`
(the parts used by the dispatch core). -/
structure Config where
  host : String
  api : String
  web : String
deriving DecidableEq, Repr

/-- `this.apiHostname = ` the template string of `config.api`, a dot and
`config.host` (source line 35). -/
def apiHostname (cfg : Config) : String :=
  cfg.api ++ "." ++ cfg.host

/-- `this.webHostname = ` the template string of `config.web`, a dot and
`config.host` (source line 36). -/
def webHostname (cfg : Config) : String :=
  cfg.web ++ "." ++ cfg.host

/-- A `WebSocketRelay`, identified by the reference identity of the object,
modelled as a numeric id. -/
structure Relay where
  id : Nat
deriving DecidableEq, Repr

/-- The `this.relays` map, hostname -> WebSocketRelay (source line 38),
as an association list. -/
abbrev Registry := List (String × Relay)

/-- `this.relays.get(hostname)` (source lines 97, 135, 153). -/
def Registry.lookup (relays : Registry) (hostname : String) : Option Relay :=
  (relays.find? (fun p => p.1 == hostname)).map (fun p => p.2)

/-- `this.relays.set(hostname, relay)` (source line 208): any previous entry
for the key is replaced.  (JavaScript keeps the entry at its old position;
position is unobservable since the service never iterates the map.) -/
def Registry.set (relays : Registry) (hostname : String) (relay : Relay) : Registry :=
  relays.filter (fun p => p.1 != hostname) ++ [(hostname, relay)]

/-- `this.relays.delete(hostname)` (source line 211). -/
def Registry.delete (relays : Registry) (hostname : String) : Registry :=
  relays.filter (fun p => p.1 != hostname)

/-- The registry states reachable by the service: it starts empty (line 38)
and is mutated only by `set` at registration (line 208) and `delete` in the
close observer (line 211). -/
inductive Registry.Reachable : Registry → Prop
  | init : Registry.Reachable []
  | set (relays : Registry) (hostname : String) (relay : Relay) :
      Registry.Reachable relays → Registry.Reachable (Registry.set relays hostname relay)
  | del (relays : Registry) (hostname : String) :
      Registry.Reachable relays → Registry.Reachable (Registry.delete relays hostname)

/-- The number of registry entries stored under a given hostname. -/
def Registry.countFor (relays : Registry) (hostname : String) : Nat :=
  (relays.filter (fun p => p.1 == hostname)).length

/-- The side effect the dispatcher performs on an incoming connection. -/
inductive Action where
  | forwardToApi : Action
  | forwardToWeb : Action
  | relayAddSocket : Relay → String → Nat → Action
  | respondAndClose : String → Action
deriving DecidableEq, Repr

/-- The template string `HTTP/1.1 500 <message>\r\n\r\n<message>` used by
`socket.end` on both dispatch rejection paths (source lines 102, 132, 140). -/
def errorResponse (message : String) : String :=
  s!"HTTP/1.1 500 {message}\r\n\r\n{message}"

/-- `handleTlsConnection(socket, hostname)` (source lines 89-105): route a
TLS connection by hostname to the API server, the web server, a registered
relay tagged with port 443, or a literal 500 response. -/
def handleTlsConnection (cfg : Config) (relays : Registry) (hostname : String) : Action :=
  if hostname = apiHostname cfg then
    Action.forwardToApi
  else if hostname = webHostname cfg then
    Action.forwardToWeb
  else
    match Registry.lookup relays hostname with
    | some relay => Action.relayAddSocket relay hostname 443
    | none => Action.respondAndClose (errorResponse "Relay not connected")

/-- JavaScript `String.prototype.startsWith`, modelled over the character
lists of the strings. -/
def strStartsWith (s pre : String) : Bool :=
  pre.toList.isPrefixOf s.toList

/-- `handleNetConnection(socket, hostname, path)` (source lines 118-143):
redirect the base host to the web hostname, redirect the API/Web hostnames to
their secure equivalents, refuse non-ACME paths, and otherwise forward to a
registered relay tagged with port 80 or answer with a literal 500 response. -/
def handleNetConnection (cfg : Config) (relays : Registry)
    (hostname path : String) : Action :=
  if hostname = cfg.host then
    Action.respondAndClose ("HTTP/1.1 301 Moved Permanently\r\n" ++
      "Location: https://" ++ webHostname cfg ++ path ++ "\r\n\r\n")
  else if hostname = apiHostname cfg ∨ hostname = webHostname cfg then
    Action.respondAndClose ("HTTP/1.1 301 Moved Permanently\r\n" ++
      "Location: https://" ++ hostname ++ path ++ "\r\n\r\n")
  else if !strStartsWith path "/.well-known/acme-challenge/" then
    Action.respondAndClose (errorResponse "Only ACME requests supported")
  else
    match Registry.lookup relays hostname with
    | some relay => Action.relayAddSocket relay hostname 80
    | none => Action.respondAndClose (errorResponse "Relay not connected")

/-- JavaScript string interpolation of a possibly-undefined header value:
an absent header interpolates as the literal text `undefined`
(source line 152). -/
def jsInterpolate (header : Option String) : String :=
  match header with
  | some s => s
  | none => "undefined"

/-- The candidate hostname composed from the `x-spacekit-subdomain` and
`x-spacekit-username` headers and `config.host` (source line 152). -/
def candidateHostname (cfg : Config) (subdomain username : Option String) : String :=
  jsInterpolate subdomain ++ "." ++ jsInterpolate username ++ "." ++ cfg.host

/-- A row of the `users` table as returned by the credential-store query
`SELECT id, api_key FROM users WHERE username = $1` (source line 166). -/
structure UserRow where
  id : Nat
  api_key : String
deriving DecidableEq, Repr

/-- The outcome of one relay handshake, matching the log messages of
`authenticateRelayConnection` (source lines 162, 170, 175, 181, 186, 190). -/
inductive AuthOutcome where
  | rejectedDuplicate
  | rejectedDbError
  | rejectedUserNotFound
  | rejectedBcryptError
  | rejectedBadSecret
  | accepted
deriving DecidableEq, Repr

/-- The observable result of one handshake: its outcome, whether the service
called `webSocket.close()` on the control connection, the application
messages the service sent on the control connection (the handshake never
sends any), and the registry after the handshake completed. -/
structure AuthResult where
  outcome : AuthOutcome
  socketClosed : Bool
  sent : List String
  registry : Registry
deriving DecidableEq, Repr

/-- What the DNS-sync step did. -/
inductive DnsEffect where
  | noEffect
  | upsert (hostname recordType address : String)
deriving DecidableEq, Repr

/-- The observable result of `handleRelayConnection`: the registry after the
`set`, the DNS operation issued, whether any error was sent to the tunnel
client, and whether the service closed the relay channel. -/
structure RelayConnResult where
  registry : Registry
  dnsEffect : DnsEffect
  errorSentToClient : Bool
  channelClosed : Bool
deriving DecidableEq, Repr

/-- `handleRelayConnection(webSocket, hostname)` (source lines 205-225):
unconditionally `this.relays.set(hostname, relay)`, then, if DNS is
configured, resolve the API hostname and on success upsert an `A` record for
the new hostname; on resolution error nothing further happens (the source
carries only a TODO comment there).  `upsert` is invoked without a callback,
so no upsert outcome can influence the service; `resolveResult` is the
environment's answer to `Dns.resolve4`. -/
def handleRelayConnection (relays : Registry) (hostname : String) (relay : Relay)
    (dynamicDNS : Bool) (resolveResult : Except String (List String)) : RelayConnResult :=
  let registry := Registry.set relays hostname relay
  if dynamicDNS then
    match resolveResult with
    | Except.error _ => ⟨registry, DnsEffect.noEffect, false, false⟩
    | Except.ok addresses =>
        ⟨registry, DnsEffect.upsert hostname "A" (addresses.headD ""), false, false⟩
  else
    ⟨registry, DnsEffect.noEffect, false, false⟩

/-- The close observer installed at registration (source lines 210-212):
`this.relays.delete(hostname)`, unconditionally. -/
def relayCloseHandler (relays : Registry) (hostname : String) : Registry :=
  Registry.delete relays hostname

/-- The synchronous duplicate snapshot check at the start of
`authenticateRelayConnection` (source lines 153, 161): truthiness of
`this.relays.get(hostname)`. -/
def authDuplicateCheck (relays : Registry) (hostname : String) : Bool :=
  (Registry.lookup relays hostname).isSome

/-- The asynchronous remainder of `authenticateRelayConnection` after the
duplicate snapshot check (source lines 166-194): the database callback, the
bcrypt callback and, on success, `handleRelayConnection`.  `relays` is the
registry current when these callbacks run (which, in a race, can differ from
the registry the snapshot check saw); `dbResult` is the environment's answer
to the credential-store query, `bcryptCompare` the environment's bcrypt
comparison primitive applied to the presented api key and the stored hash. -/
def authAfterDuplicateCheck (relays : Registry) (hostname : String)
    (apikey : Option String) (dbResult : Except String (List UserRow))
    (bcryptCompare : String → String → Except String Bool) (relay : Relay)
    (dynamicDNS : Bool) (resolveResult : Except String (List String)) : AuthResult :=
  match dbResult with
  | Except.error _ => ⟨AuthOutcome.rejectedDbError, true, [], relays⟩
  | Except.ok rows =>
    if rows.length = 0 then
      ⟨AuthOutcome.rejectedUserNotFound, true, [], relays⟩
    else
      match bcryptCompare (jsInterpolate apikey) ((rows.headD ⟨0, ""⟩).api_key) with
      | Except.error _ => ⟨AuthOutcome.rejectedBcryptError, true, [], relays⟩
      | Except.ok false => ⟨AuthOutcome.rejectedBadSecret, true, [], relays⟩
      | Except.ok true =>
          ⟨AuthOutcome.accepted, false, [],
            (handleRelayConnection relays hostname relay dynamicDNS resolveResult).registry⟩

/-- `authenticateRelayConnection(webSocket)` (source lines 148-195) in the
interleaving-free case: the registry does not change between the duplicate
snapshot check and the completion of the callbacks, so one `relays` serves
both phases. -/
def authenticateRelayConnection (cfg : Config) (relays : Registry)
    (subdomain username apikey : Option String)
    (dbResult : Except String (List UserRow))
    (bcryptCompare : String → String → Except String Bool) (relay : Relay)
    (dynamicDNS : Bool) (resolveResult : Except String (List String)) : AuthResult :=
  if authDuplicateCheck relays (candidateHostname cfg subdomain username) then
    ⟨AuthOutcome.rejectedDuplicate, true, [], relays⟩
  else
    authAfterDuplicateCheck relays (candidateHostname cfg subdomain username)
      apikey dbResult bcryptCompare relay dynamicDNS resolveResult

/-! Registry lemmas -/

theorem find?_key_filter_self (relays : Registry) (hostname : String) :
    List.find? (fun p => p.1 == hostname)
      (List.filter (fun p => p.1 != hostname) relays) = none := by
  rw [List.find?_eq_none]
  intro p hp
  simp only [List.mem_filter, bne_iff_ne] at hp
  simp [hp.2]

theorem find?_key_filter_other (relays : Registry) (h h' : String) (hne : h' ≠ h) :
    List.find? (fun p => p.1 == h') (List.filter (fun p => p.1 != h) relays) =
    List.find? (fun p => p.1 == h') relays := by
  induction relays with
  | nil => rfl
  | cons a t ih =>
    by_cases hc : a.1 = h'
    · have hah : (a.1 != h) = true := by simp [hc, hne]
      have hfind : (a.1 == h') = true := by simp [hc]
      rw [@List.filter_cons_of_pos _ (fun p => p.1 != h) a t hah,
        @List.find?_cons_of_pos _ (fun p => p.1 == h') a _ hfind,
        @List.find?_cons_of_pos _ (fun p => p.1 == h') a _ hfind]
    · have hfind : ¬ ((a.1 == h') = true) := by simp [hc]
      by_cases hd : a.1 = h
      · have hah : ¬ ((a.1 != h) = true) := by simp [hd]
        rw [@List.filter_cons_of_neg _ (fun p => p.1 != h) a t hah, ih,
          @List.find?_cons_of_neg _ (fun p => p.1 == h') a _ hfind]
      · have hah : (a.1 != h) = true := by simp [hd]
        rw [@List.filter_cons_of_pos _ (fun p => p.1 != h) a t hah,
          @List.find?_cons_of_neg _ (fun p => p.1 == h') a _ hfind,
          @List.find?_cons_of_neg _ (fun p => p.1 == h') a _ hfind, ih]

theorem lookup_set_self (relays : Registry) (hostname : String) (relay : Relay) :
    Registry.lookup (Registry.set relays hostname relay) hostname = some relay := by
  unfold Registry.lookup Registry.set
  rw [List.find?_append, find?_key_filter_self]
  simp [List.find?_cons]

theorem lookup_set_other (relays : Registry) (h h' : String) (relay : Relay)
    (hne : h' ≠ h) :
    Registry.lookup (Registry.set relays h relay) h' = Registry.lookup relays h' := by
  unfold Registry.lookup Registry.set
  rw [List.find?_append, find?_key_filter_other relays h h' hne]
  have hne2 : (h == h') = false := beq_eq_false_iff_ne.mpr (Ne.symm hne)
  simp [List.find?_cons, hne2]

theorem lookup_delete_self (relays : Registry) (hostname : String) :
    Registry.lookup (Registry.delete relays hostname) hostname = none := by
  unfold Registry.lookup Registry.delete
  rw [find?_key_filter_self]
  rfl

theorem lookup_delete_other (relays : Registry) (h h' : String) (hne : h' ≠ h) :
    Registry.lookup (Registry.delete relays h) h' = Registry.lookup relays h' := by
  unfold Registry.lookup Registry.delete
  rw [find?_key_filter_other relays h h' hne]

theorem countFor_delete_le (relays : Registry) (h h' : String) :
    Registry.countFor (Registry.delete relays h') h ≤ Registry.countFor relays h := by
  unfold Registry.countFor Registry.delete
  exact List.Sublist.length_le (List.Sublist.filter _ (List.filter_sublist _))

theorem countFor_set_self (relays : Registry) (hostname : String) (relay : Relay) :
    Registry.countFor (Registry.set relays hostname relay) hostname = 1 := by
  unfold Registry.countFor Registry.set
  rw [List.filter_append, List.filter_filter]
  have h1 : List.filter (fun p => (p.1 == hostname) && (p.1 != hostname)) relays = [] := by
    rw [List.filter_eq_nil_iff]
    intro p _
    cases hc : p.1 == hostname <;> simp [bne, hc]
  rw [h1]
  simp [List.filter]

theorem countFor_set_other (relays : Registry) (h h' : String) (relay : Relay)
    (hne : h' ≠ h) :
    Registry.countFor (Registry.set relays h' relay) h ≤ Registry.countFor relays h := by
  unfold Registry.countFor Registry.set
  rw [List.filter_append]
  have h2 : List.filter (fun p => p.1 == h) [(h', relay)] = [] := by simp [hne]
  rw [h2, List.append_nil]
  exact List.Sublist.length_le (List.Sublist.filter _ (List.filter_sublist _))

theorem reachable_countFor_le_one (relays : Registry) (hr : Registry.Reachable relays)
    (hostname : String) : Registry.countFor relays hostname ≤ 1 := by
  induction hr with
  | init => simp [Registry.countFor]
  | set relays' h' r _ ih =>
    by_cases hc : hostname = h'
    · subst hc
      rw [countFor_set_self]
    · exact le_trans (countFor_set_other relays' hostname h' r (fun e => hc e.symm)) ih
  | del relays' h' _ ih =>
    exact le_trans (countFor_delete_le relays' hostname h') ih

theorem handleRelayConnection_registry (relays : Registry) (hostname : String)
    (relay : Relay) (dynamicDNS : Bool) (resolveResult : Except String (List String)) :
    (handleRelayConnection relays hostname relay dynamicDNS resolveResult).registry =
    Registry.set relays hostname relay := by
  cases dynamicDNS <;> cases resolveResult <;> rfl

theorem authenticate_eq_of_check_false (cfg : Config) (relays : Registry)
    (subdomain username apikey : Option String)
    (dbResult : Except String (List UserRow))
    (bcryptCompare : String → String → Except String Bool) (relay : Relay)
    (dynamicDNS : Bool) (resolveResult : Except String (List String))
    (hd : authDuplicateCheck relays (candidateHostname cfg subdomain username) = false) :
    authenticateRelayConnection cfg relays subdomain username apikey dbResult
        bcryptCompare relay dynamicDNS resolveResult =
      authAfterDuplicateCheck relays (candidateHostname cfg subdomain username)
        apikey dbResult bcryptCompare relay dynamicDNS resolveResult := by
  unfold authenticateRelayConnection
  rw [hd]
  rfl

theorem authenticate_eq_of_check_true (cfg : Config) (relays : Registry)
    (subdomain username apikey : Option String)
    (dbResult : Except String (List UserRow))
    (bcryptCompare : String → String → Except String Bool) (relay : Relay)
    (dynamicDNS : Bool) (resolveResult : Except String (List String))
    (hd : authDuplicateCheck relays (candidateHostname cfg subdomain username) = true) :
    authenticateRelayConnection cfg relays subdomain username apikey dbResult
        bcryptCompare relay dynamicDNS resolveResult =
      ⟨AuthOutcome.rejectedDuplicate, true, [], relays⟩ := by
  unfold authenticateRelayConnection
  rw [hd]
  rfl

theorem authAfter_dbError (relays : Registry) (hostname : String)
    (apikey : Option String) (e : String)
    (bcryptCompare : String → String → Except String Bool) (relay : Relay)
    (dynamicDNS : Bool) (resolveResult : Except String (List String)) :
    authAfterDuplicateCheck relays hostname apikey (Except.error e) bcryptCompare
        relay dynamicDNS resolveResult =
      ⟨AuthOutcome.rejectedDbError, true, [], relays⟩ := rfl

theorem authAfter_userNotFound (relays : Registry) (hostname : String)
    (apikey : Option String) (rows : List UserRow)
    (bcryptCompare : String → String → Except String Bool) (relay : Relay)
    (dynamicDNS : Bool) (resolveResult : Except String (List String))
    (hr : rows.length = 0) :
    authAfterDuplicateCheck relays hostname apikey (Except.ok rows) bcryptCompare
        relay dynamicDNS resolveResult =
      ⟨AuthOutcome.rejectedUserNotFound, true, [], relays⟩ := by
  simp only [authAfterDuplicateCheck]
  rw [if_pos hr]

theorem authAfter_bcrypt (relays : Registry) (hostname : String)
    (apikey : Option String) (rows : List UserRow)
    (bcryptCompare : String → String → Except String Bool) (relay : Relay)
    (dynamicDNS : Bool) (resolveResult : Except String (List String))
    (hr : rows.length ≠ 0) :
    authAfterDuplicateCheck relays hostname apikey (Except.ok rows) bcryptCompare
        relay dynamicDNS resolveResult =
      (match bcryptCompare (jsInterpolate apikey) ((rows.headD ⟨0, ""⟩).api_key) with
       | Except.error _ => ⟨AuthOutcome.rejectedBcryptError, true, [], relays⟩
       | Except.ok false => ⟨AuthOutcome.rejectedBadSecret, true, [], relays⟩
       | Except.ok true =>
           ⟨AuthOutcome.accepted, false, [], Registry.set relays hostname relay⟩) := by
  simp only [authAfterDuplicateCheck]
  rw [if_neg hr, handleRelayConnection_registry]

theorem authAfter_accepted_eq (relays : Registry) (hostname : String)
    (apikey : Option String) (dbResult : Except String (List UserRow))
    (bcryptCompare : String → String → Except String Bool) (relay : Relay)
    (dynamicDNS : Bool) (resolveResult : Except String (List String))
    (h : (authAfterDuplicateCheck relays hostname apikey dbResult bcryptCompare
        relay dynamicDNS resolveResult).outcome = AuthOutcome.accepted) :
    authAfterDuplicateCheck relays hostname apikey dbResult bcryptCompare relay
        dynamicDNS resolveResult =
      ⟨AuthOutcome.accepted, false, [], Registry.set relays hostname relay⟩ := by
  rcases dbResult with e | rows
  · rw [authAfter_dbError] at h
    simp at h
  · by_cases hr : rows.length = 0
    · rw [authAfter_userNotFound relays hostname apikey rows bcryptCompare relay
        dynamicDNS resolveResult hr] at h
      simp at h
    · rw [authAfter_bcrypt relays hostname apikey rows bcryptCompare relay
        dynamicDNS resolveResult hr] at h ⊢
      rcases hbc : bcryptCompare (jsInterpolate apikey)
          ((rows.headD ⟨0, ""⟩).api_key) with e | b
      · rw [hbc] at h
        simp at h
      · cases b
        · rw [hbc] at h
          simp at h
        · rfl

theorem authAfter_accepted_mono (relays relays' : Registry) (hostname : String)
    (apikey : Option String) (dbResult : Except String (List UserRow))
    (bcryptCompare : String → String → Except String Bool) (relay relay' : Relay)
    (dns dns' : Bool) (res res' : Except String (List String))
    (h : (authAfterDuplicateCheck relays hostname apikey dbResult bcryptCompare
        relay dns res).outcome = AuthOutcome.accepted) :
    (authAfterDuplicateCheck relays' hostname apikey dbResult bcryptCompare
        relay' dns' res').outcome = AuthOutcome.accepted := by
  rcases dbResult with e | rows
  · rw [authAfter_dbError] at h
    simp at h
  · by_cases hr : rows.length = 0
    · rw [authAfter_userNotFound relays hostname apikey rows bcryptCompare relay
        dns res hr] at h
      simp at h
    · rw [authAfter_bcrypt relays hostname apikey rows bcryptCompare relay
        dns res hr] at h
      rw [authAfter_bcrypt relays' hostname apikey rows bcryptCompare relay'
        dns' res' hr]
      rcases hbc : bcryptCompare (jsInterpolate apikey)
          ((rows.headD ⟨0, ""⟩).api_key) with e | b
      · rw [hbc] at h
        simp at h
      · cases b
        · rw [hbc] at h
          simp at h
        · rfl

/-! Claim theorems -/

/-- A sample configuration used by concrete witnesses: base host
`example.com`, API subdomain `api`, web subdomain `www`. -/
def cfg0 : Config := ⟨"example.com", "api", "www"⟩

/-- Claim C3: a secure connection whose hostname equals the configured API
hostname is handed to the internal API handler and never to a relay, for
every registry state (in particular even when a relay is registered under
that exact hostname); and the Web hostname check precedes the relay lookup,
so the Web hostname is handed to the web handler whenever it is distinct
from the API hostname. -/
theorem c3_api_web_precedence (cfg : Config) (relays : Registry) :
    handleTlsConnection cfg relays (apiHostname cfg) = Action.forwardToApi ∧
    (webHostname cfg ≠ apiHostname cfg →
      handleTlsConnection cfg relays (webHostname cfg) = Action.forwardToWeb) := by
  constructor
  · simp [handleTlsConnection]
  · intro hne
    simp [handleTlsConnection, hne]

/-- Claim C3, witness: with a relay registered under the API hostname
itself, the API hostname still goes to the API handler, and the Web
hostname to the web handler. -/
theorem c3_api_web_precedence_witness :
    handleTlsConnection cfg0 [("api.example.com", ⟨5⟩)] (apiHostname cfg0) =
      Action.forwardToApi ∧
    handleTlsConnection cfg0 [("api.example.com", ⟨5⟩)] (webHostname cfg0) =
      Action.forwardToWeb := by
  have h := c3_api_web_precedence cfg0 [("api.example.com", ⟨5⟩)]
  exact ⟨h.1, h.2 (by decide)⟩

/-- Claim C5: a secure connection whose hostname is neither the API nor the
Web hostname and has no registered relay receives exactly the literal
response `HTTP/1.1 500 Relay not connected\r\n\r\nRelay not connected` and
is then closed (`Action.respondAndClose` reifies `socket.end`, which writes
the response and closes the socket). -/
theorem c5_relay_not_connected (cfg : Config) (relays : Registry) (hostname : String)
    (hapi : hostname ≠ apiHostname cfg) (hweb : hostname ≠ webHostname cfg)
    (hnone : Registry.lookup relays hostname = none) :
    handleTlsConnection cfg relays hostname =
      Action.respondAndClose "HTTP/1.1 500 Relay not connected\r\n\r\nRelay not connected" := by
  unfold handleTlsConnection
  rw [if_neg hapi, if_neg hweb, hnone]
  rfl

/-- Claim C5, witness: the hostname `foo.alice.example.com` with an empty
registry receives the literal response. -/
theorem c5_relay_not_connected_witness :
    handleTlsConnection cfg0 [] "foo.alice.example.com" =
      Action.respondAndClose "HTTP/1.1 500 Relay not connected\r\n\r\nRelay not connected" :=
  c5_relay_not_connected cfg0 [] "foo.alice.example.com" (by decide) (by decide) rfl

/-- Claim C7: a plain connection whose hostname equals the configured base
host receives exactly
`HTTP/1.1 301 Moved Permanently\r\nLocation: https://<webHostname><path>\r\n\r\n`
(the request's path appended to the Web hostname) and is then closed. -/
theorem c7_base_host_redirect (cfg : Config) (relays : Registry) (path : String) :
    handleNetConnection cfg relays cfg.host path =
      Action.respondAndClose ("HTTP/1.1 301 Moved Permanently\r\n" ++
        "Location: https://" ++ webHostname cfg ++ path ++ "\r\n\r\n") := by
  simp [handleNetConnection]

/-- Claim C6: for a plain connection whose hostname is none of the base
host, the API hostname and the Web hostname: a path that does not start
with `/.well-known/acme-challenge/` receives the literal
`Only ACME requests supported` 500 response for every registry state (in
particular even when a relay is registered for the hostname); a path that
does start with that prefix, when a relay is registered for the hostname,
makes the service instruct that relay to accept the socket tagged with the
hostname and port 80. -/
theorem c6_plain_acme_dispatch (cfg : Config) (relays : Registry)
    (hostname path : String)
    (hbase : hostname ≠ cfg.host) (hapi : hostname ≠ apiHostname cfg)
    (hweb : hostname ≠ webHostname cfg) :
    (strStartsWith path "/.well-known/acme-challenge/" = false →
      handleNetConnection cfg relays hostname path =
        Action.respondAndClose
          "HTTP/1.1 500 Only ACME requests supported\r\n\r\nOnly ACME requests supported") ∧
    (∀ relay, strStartsWith path "/.well-known/acme-challenge/" = true →
      Registry.lookup relays hostname = some relay →
      handleNetConnection cfg relays hostname path =
        Action.relayAddSocket relay hostname 80) := by
  have hor : ¬ (hostname = apiHostname cfg ∨ hostname = webHostname cfg) :=
    fun hc => hc.elim hapi hweb
  constructor
  · intro hpath
    unfold handleNetConnection
    rw [if_neg hbase, if_neg hor, hpath]
    rfl
  · intro relay hpath hsome
    unfold handleNetConnection
    rw [if_neg hbase, if_neg hor, hpath]
    simp only [Bool.not_true, Bool.false_eq_true, if_false, ite_false]
    rw [hsome]

/-- Claim C6, witness: for the unregistered-path shape `/bar` the literal
response, and for `/.well-known/acme-challenge/xyz` with a registered relay
the forward tagged with port 80. -/
theorem c6_plain_acme_dispatch_witness :
    handleNetConnection cfg0 [("foo.alice.example.com", ⟨1⟩)] "foo.alice.example.com" "/bar" =
      Action.respondAndClose
        "HTTP/1.1 500 Only ACME requests supported\r\n\r\nOnly ACME requests supported" ∧
    handleNetConnection cfg0 [("foo.alice.example.com", ⟨1⟩)] "foo.alice.example.com"
        "/.well-known/acme-challenge/xyz" =
      Action.relayAddSocket ⟨1⟩ "foo.alice.example.com" 80 := by
  have h := c6_plain_acme_dispatch cfg0 [("foo.alice.example.com", ⟨1⟩)]
    "foo.alice.example.com" "/bar" (by decide) (by decide) (by decide)
  have h2 := c6_plain_acme_dispatch cfg0 [("foo.alice.example.com", ⟨1⟩)]
    "foo.alice.example.com" "/.well-known/acme-challenge/xyz" (by decide) (by decide) (by decide)
  exact ⟨h.1 (by decide), h2.2 ⟨1⟩ (by decide) rfl⟩

/-- Claim C8: after a registered relay's channel closes (firing the close
observer, which deletes the hostname's entry), lookup of that hostname
returns absent, and a subsequent secure connection for that hostname (a
relay hostname, so distinct from the API and Web hostnames) again receives
the literal `Relay not connected` 500 response. -/
theorem c8_close_then_absent (cfg : Config) (relays : Registry)
    (hostname : String) (relay : Relay)
    (hreg : Registry.lookup relays hostname = some relay)
    (hapi : hostname ≠ apiHostname cfg) (hweb : hostname ≠ webHostname cfg) :
    Registry.lookup (relayCloseHandler relays hostname) hostname = none ∧
    handleTlsConnection cfg (relayCloseHandler relays hostname) hostname =
      Action.respondAndClose "HTTP/1.1 500 Relay not connected\r\n\r\nRelay not connected" := by
  have habs : Registry.lookup (relayCloseHandler relays hostname) hostname = none :=
    lookup_delete_self relays hostname
  refine ⟨habs, ?_⟩
  unfold handleTlsConnection
  rw [if_neg hapi, if_neg hweb, habs]
  rfl

/-- Claim C8, witness: register `foo.alice.example.com`, fire its close
observer, observe absence and the literal 500 response. -/
theorem c8_close_then_absent_witness :
    Registry.lookup (relayCloseHandler [("foo.alice.example.com", ⟨1⟩)]
      "foo.alice.example.com") "foo.alice.example.com" = none ∧
    handleTlsConnection cfg0 (relayCloseHandler [("foo.alice.example.com", ⟨1⟩)]
        "foo.alice.example.com") "foo.alice.example.com" =
      Action.respondAndClose "HTTP/1.1 500 Relay not connected\r\n\r\nRelay not connected" :=
  c8_close_then_absent cfg0 [("foo.alice.example.com", ⟨1⟩)] "foo.alice.example.com" ⟨1⟩
    rfl (by decide) (by decide)

/-- Claim C9: with DNS sync configured, a resolution failure (and likewise
an upsert failure, which cannot influence the service because `upsert` is
invoked without any callback and hence has no result in the model) leaves
the just-registered entry in place, sends no error to the tunnel client,
and does not close the relay channel; the registry after
`handleRelayConnection` is the plain `set`, for every DNS outcome. -/
theorem c9_dns_best_effort (relays : Registry) (hostname : String) (relay : Relay)
    (resolveResult : Except String (List String)) :
    Registry.lookup
      (handleRelayConnection relays hostname relay true resolveResult).registry hostname =
        some relay ∧
    (handleRelayConnection relays hostname relay true resolveResult).errorSentToClient = false ∧
    (handleRelayConnection relays hostname relay true resolveResult).channelClosed = false ∧
    (handleRelayConnection relays hostname relay true resolveResult).registry =
      Registry.set relays hostname relay := by
  refine ⟨?_, ?_, ?_, handleRelayConnection_registry relays hostname relay true resolveResult⟩
  · rw [handleRelayConnection_registry]
    exact lookup_set_self relays hostname relay
  · cases resolveResult <;> rfl
  · cases resolveResult <;> rfl

/-- Claim C4: every handshake rejection — duplicate hostname claim, unknown
username, credential-store query failure, bcrypt failure, or secret
mismatch — closes the control connection, sends no application-level
message, and leaves the registry unchanged (first conjunct: any outcome is
either `accepted` or closes with no message and no registry change); in
particular an unknown username yields `rejectedUserNotFound` with the
registry unchanged, and a correct username with a wrong secret yields
`rejectedBadSecret` with the registry unchanged. -/
theorem c4_handshake_rejection (cfg : Config) (relays : Registry)
    (subdomain username apikey : Option String)
    (dbResult : Except String (List UserRow))
    (bcryptCompare : String → String → Except String Bool) (relay : Relay)
    (dynamicDNS : Bool) (resolveResult : Except String (List String)) :
    ((authenticateRelayConnection cfg relays subdomain username apikey dbResult
        bcryptCompare relay dynamicDNS resolveResult).outcome = AuthOutcome.accepted ∨
      ((authenticateRelayConnection cfg relays subdomain username apikey dbResult
          bcryptCompare relay dynamicDNS resolveResult).socketClosed = true ∧
        (authenticateRelayConnection cfg relays subdomain username apikey dbResult
          bcryptCompare relay dynamicDNS resolveResult).sent = [] ∧
        (authenticateRelayConnection cfg relays subdomain username apikey dbResult
          bcryptCompare relay dynamicDNS resolveResult).registry = relays)) ∧
    (authDuplicateCheck relays (candidateHostname cfg subdomain username) = false →
      dbResult = Except.ok [] →
      authenticateRelayConnection cfg relays subdomain username apikey dbResult
          bcryptCompare relay dynamicDNS resolveResult =
        ⟨AuthOutcome.rejectedUserNotFound, true, [], relays⟩) ∧
    (∀ rows, authDuplicateCheck relays (candidateHostname cfg subdomain username) = false →
      dbResult = Except.ok rows → rows ≠ [] →
      bcryptCompare (jsInterpolate apikey) ((rows.headD ⟨0, ""⟩).api_key) =
        Except.ok false →
      authenticateRelayConnection cfg relays subdomain username apikey dbResult
          bcryptCompare relay dynamicDNS resolveResult =
        ⟨AuthOutcome.rejectedBadSecret, true, [], relays⟩) := by
  refine ⟨?_, ?_, ?_⟩
  · cases hd : authDuplicateCheck relays (candidateHostname cfg subdomain username)
    · rw [authenticate_eq_of_check_false cfg relays subdomain username apikey dbResult
        bcryptCompare relay dynamicDNS resolveResult hd]
      rcases dbResult with e | rows
      · right
        rw [authAfter_dbError]
        exact ⟨rfl, rfl, rfl⟩
      · by_cases hr : rows.length = 0
        · right
          rw [authAfter_userNotFound relays _ apikey rows bcryptCompare relay
            dynamicDNS resolveResult hr]
          exact ⟨rfl, rfl, rfl⟩
        · rw [authAfter_bcrypt relays _ apikey rows bcryptCompare relay
            dynamicDNS resolveResult hr]
          rcases hbc : bcryptCompare (jsInterpolate apikey)
              ((rows.headD ⟨0, ""⟩).api_key) with e | b
          · right
            exact ⟨rfl, rfl, rfl⟩
          · cases b
            · right
              exact ⟨rfl, rfl, rfl⟩
            · left
              rfl
    · right
      rw [authenticate_eq_of_check_true cfg relays subdomain username apikey dbResult
        bcryptCompare relay dynamicDNS resolveResult hd]
      exact ⟨rfl, rfl, rfl⟩
  · intro hd hdb
    subst hdb
    rw [authenticate_eq_of_check_false cfg relays subdomain username apikey _
      bcryptCompare relay dynamicDNS resolveResult hd]
    exact authAfter_userNotFound relays _ apikey [] bcryptCompare relay
      dynamicDNS resolveResult rfl
  · intro rows hd hdb hne hbc
    subst hdb
    have hr : rows.length ≠ 0 := fun h0 => hne (List.length_eq_zero.mp h0)
    rw [authenticate_eq_of_check_false cfg relays subdomain username apikey _
      bcryptCompare relay dynamicDNS resolveResult hd]
    rw [authAfter_bcrypt relays _ apikey rows bcryptCompare relay
      dynamicDNS resolveResult hr, hbc]

/-- Claim C4, witness: unknown user (empty result set) and wrong secret
(bcrypt reports no match) are both rejected with the socket closed, no
message sent, and the registry unchanged. -/
theorem c4_handshake_rejection_witness :
    authenticateRelayConnection cfg0 [] (some "foo") (some "alice") (some "wrong")
        (Except.ok []) (fun _ _ => Except.ok false) ⟨1⟩ false (Except.error "") =
      ⟨AuthOutcome.rejectedUserNotFound, true, [], []⟩ ∧
    authenticateRelayConnection cfg0 [] (some "foo") (some "alice") (some "wrong")
        (Except.ok [⟨7, "storedhash"⟩]) (fun _ _ => Except.ok false) ⟨1⟩ false
        (Except.error "") =
      ⟨AuthOutcome.rejectedBadSecret, true, [], []⟩ := by
  have h1 := c4_handshake_rejection cfg0 [] (some "foo") (some "alice") (some "wrong")
    (Except.ok []) (fun _ _ => Except.ok false) ⟨1⟩ false (Except.error "")
  have h2 := c4_handshake_rejection cfg0 [] (some "foo") (some "alice") (some "wrong")
    (Except.ok [⟨7, "storedhash"⟩]) (fun _ _ => Except.ok false) ⟨1⟩ false (Except.error "")
  exact ⟨h1.2.1 rfl rfl, h2.2.2 [⟨7, "storedhash"⟩] rfl rfl (by decide) rfl⟩

/-- Claim C10: absent registration headers are not rejected as malformed:
an absent header interpolates as the literal text `undefined` in the
candidate hostname (`jsInterpolate none = "undefined"`), the handshake
behaves exactly as if the literal string `undefined` had been presented,
and whenever the duplicate snapshot check passes the handshake proceeds to
the credential-store query (`authAfterDuplicateCheck`), so rejection can
only arise from the duplicate, user-not-found, or secret-verification
paths. -/
theorem c10_missing_headers (cfg : Config) (relays : Registry)
    (subdomain username apikey : Option String)
    (dbResult : Except String (List UserRow))
    (bcryptCompare : String → String → Except String Bool) (relay : Relay)
    (dynamicDNS : Bool) (resolveResult : Except String (List String)) :
    jsInterpolate (Option.none : Option String) = "undefined" ∧
    candidateHostname cfg none username =
      "undefined" ++ "." ++ jsInterpolate username ++ "." ++ cfg.host ∧
    candidateHostname cfg subdomain none =
      jsInterpolate subdomain ++ "." ++ "undefined" ++ "." ++ cfg.host ∧
    candidateHostname cfg none none = "undefined.undefined." ++ cfg.host ∧
    authenticateRelayConnection cfg relays subdomain username apikey dbResult
        bcryptCompare relay dynamicDNS resolveResult =
      authenticateRelayConnection cfg relays (some (jsInterpolate subdomain))
        (some (jsInterpolate username)) (some (jsInterpolate apikey)) dbResult
        bcryptCompare relay dynamicDNS resolveResult ∧
    (authDuplicateCheck relays (candidateHostname cfg subdomain username) = false →
      authenticateRelayConnection cfg relays subdomain username apikey dbResult
          bcryptCompare relay dynamicDNS resolveResult =
        authAfterDuplicateCheck relays (candidateHostname cfg subdomain username)
          apikey dbResult bcryptCompare relay dynamicDNS resolveResult) := by
  refine ⟨rfl, rfl, rfl, ?_, rfl, ?_⟩
  · show "undefined" ++ "." ++ "undefined" ++ "." ++ cfg.host = "undefined.undefined." ++ cfg.host
    rfl
  · intro hd
    simp [authenticateRelayConnection, hd]

/-- Claim C10, witness: all three headers absent, empty registry: the
handshake reaches the credential-store phase with the hostname
`undefined.undefined.example.com` and, for an unknown user, is rejected
through the user-not-found path, not a malformed-input path. -/
theorem c10_missing_headers_witness :
    candidateHostname cfg0 none none = "undefined.undefined." ++ cfg0.host ∧
    authenticateRelayConnection cfg0 [] none none none (Except.ok [])
        (fun _ _ => Except.ok false) ⟨1⟩ false (Except.error "") =
      authAfterDuplicateCheck [] (candidateHostname cfg0 none none) none
        (Except.ok []) (fun _ _ => Except.ok false) ⟨1⟩ false (Except.error "") := by
  have h := c10_missing_headers cfg0 [] none none none (Except.ok [])
    (fun _ _ => Except.ok false) ⟨1⟩ false (Except.error "")
  exact ⟨h.2.2.2.1, h.2.2.2.2.2 rfl⟩

/-- Claim C1, counterexample: `handleRelayConnection` performs no
registration-time duplicate check — the only duplicate check is the snapshot
at the start of `authenticateRelayConnection`.  Trace: handshakes H1 and H2
for `app.alice.example.com` both run their snapshot check against the empty
registry (both pass, first conjunct), both authenticate successfully; H1
registers relay 1, which becomes visible to lookup; H2's registration then
runs while that entry is already present, yet H2 is accepted, its channel is
not closed, and its relay 2 becomes visible to lookup — and relay 1's entry
is silently overwritten although H1's channel was never closed.  This
refutes "the handshake that finds an entry already present at registration
time closes its channel without ever creating a Relay visible to lookup". -/
theorem c1_registry_race_counterexample :
    authDuplicateCheck [] "app.alice.example.com" = false ∧
    (authAfterDuplicateCheck [] "app.alice.example.com" (some "k")
        (Except.ok [⟨7, "storedhash"⟩]) (fun _ _ => Except.ok true) ⟨1⟩ false
        (Except.error "")).outcome = AuthOutcome.accepted ∧
    (authAfterDuplicateCheck [] "app.alice.example.com" (some "k")
        (Except.ok [⟨7, "storedhash"⟩]) (fun _ _ => Except.ok true) ⟨1⟩ false
        (Except.error "")).socketClosed = false ∧
    (authAfterDuplicateCheck [] "app.alice.example.com" (some "k")
        (Except.ok [⟨7, "storedhash"⟩]) (fun _ _ => Except.ok true) ⟨1⟩ false
        (Except.error "")).registry = [("app.alice.example.com", ⟨1⟩)] ∧
    Registry.lookup [("app.alice.example.com", ⟨1⟩)] "app.alice.example.com" =
      some ⟨1⟩ ∧
    (authAfterDuplicateCheck [("app.alice.example.com", ⟨1⟩)]
        "app.alice.example.com" (some "k") (Except.ok [⟨7, "storedhash"⟩])
        (fun _ _ => Except.ok true) ⟨2⟩ false (Except.error "")).outcome =
      AuthOutcome.accepted ∧
    (authAfterDuplicateCheck [("app.alice.example.com", ⟨1⟩)]
        "app.alice.example.com" (some "k") (Except.ok [⟨7, "storedhash"⟩])
        (fun _ _ => Except.ok true) ⟨2⟩ false (Except.error "")).socketClosed =
      false ∧
    Registry.lookup (authAfterDuplicateCheck [("app.alice.example.com", ⟨1⟩)]
        "app.alice.example.com" (some "k") (Except.ok [⟨7, "storedhash"⟩])
        (fun _ _ => Except.ok true) ⟨2⟩ false (Except.error "")).registry
      "app.alice.example.com" = some ⟨2⟩ ∧
    Registry.lookup (authAfterDuplicateCheck [("app.alice.example.com", ⟨1⟩)]
        "app.alice.example.com" (some "k") (Except.ok [⟨7, "storedhash"⟩])
        (fun _ _ => Except.ok true) ⟨2⟩ false (Except.error "")).registry
      "app.alice.example.com" ≠ some ⟨1⟩ :=
  ⟨rfl, rfl, rfl, rfl, rfl, rfl, rfl, rfl, by decide⟩

/-- Claim C1, amended: (1) the registry holds at most one entry per hostname
at any instant (over all reachable registry states); (2) a handshake whose
initial snapshot check finds an existing entry is rejected as a duplicate:
its channel is closed without registering anything, so no relay of that
handshake is ever visible to lookup; (3) however the duplicate check happens
only at the start of the handshake, not at registration time: when two
handshakes for the same hostname both pass the snapshot check before either
registers, both are accepted, the later registration silently overwrites the
earlier entry, neither channel is closed by the service, and the earlier
relay was visible to lookup until overwritten. -/
theorem c1_registry_amended :
    (∀ relays : Registry, Registry.Reachable relays → ∀ hostname : String,
        Registry.countFor relays hostname ≤ 1) ∧
    (∀ (cfg : Config) (relays : Registry) (subdomain username apikey : Option String)
        (dbResult : Except String (List UserRow))
        (bc : String → String → Except String Bool) (relay : Relay)
        (dns : Bool) (res : Except String (List String)),
      authDuplicateCheck relays (candidateHostname cfg subdomain username) = true →
      authenticateRelayConnection cfg relays subdomain username apikey dbResult
          bc relay dns res =
        ⟨AuthOutcome.rejectedDuplicate, true, [], relays⟩) ∧
    (∀ (relays : Registry) (hostname : String) (apikey : Option String)
        (dbResult : Except String (List UserRow))
        (bc : String → String → Except String Bool) (r1 r2 : Relay)
        (dns1 dns2 : Bool) (res1 res2 : Except String (List String)),
      (authAfterDuplicateCheck relays hostname apikey dbResult bc r1 dns1
          res1).outcome = AuthOutcome.accepted →
      (authAfterDuplicateCheck relays hostname apikey dbResult bc r1 dns1
          res1).socketClosed = false ∧
      Registry.lookup (authAfterDuplicateCheck relays hostname apikey dbResult
          bc r1 dns1 res1).registry hostname = some r1 ∧
      (authAfterDuplicateCheck (authAfterDuplicateCheck relays hostname apikey
          dbResult bc r1 dns1 res1).registry hostname apikey dbResult bc r2
          dns2 res2).outcome = AuthOutcome.accepted ∧
      (authAfterDuplicateCheck (authAfterDuplicateCheck relays hostname apikey
          dbResult bc r1 dns1 res1).registry hostname apikey dbResult bc r2
          dns2 res2).socketClosed = false ∧
      Registry.lookup (authAfterDuplicateCheck (authAfterDuplicateCheck relays
          hostname apikey dbResult bc r1 dns1 res1).registry hostname apikey
          dbResult bc r2 dns2 res2).registry hostname = some r2) := by
  refine ⟨reachable_countFor_le_one, ?_, ?_⟩
  · intro cfg relays subdomain username apikey dbResult bc relay dns res hd
    exact authenticate_eq_of_check_true cfg relays subdomain username apikey
      dbResult bc relay dns res hd
  · intro relays hostname apikey dbResult bc r1 r2 dns1 dns2 res1 res2 h1
    have e1 := authAfter_accepted_eq relays hostname apikey dbResult bc r1
      dns1 res1 h1
    have h2 := authAfter_accepted_mono relays
      (authAfterDuplicateCheck relays hostname apikey dbResult bc r1 dns1
        res1).registry hostname apikey dbResult bc r1 r2 dns1 dns2 res1 res2 h1
    have e2 := authAfter_accepted_eq
      (authAfterDuplicateCheck relays hostname apikey dbResult bc r1 dns1
        res1).registry hostname apikey dbResult bc r2 dns2 res2 h2
    refine ⟨by rw [e1], ?_, h2, by rw [e2], ?_⟩
    · rw [e1]
      exact lookup_set_self relays hostname r1
    · rw [e2]
      exact lookup_set_self _ hostname r2

/-- Claim C1 (amended), witness: a reachable one-entry registry satisfies
the at-most-one bound; a handshake that sees `app.alice.example.com`
already registered is rejected as a duplicate with its channel closed and
the registry unchanged; and in the concrete race both registrations go
through, the second one winning. -/
theorem c1_registry_amended_witness :
    Registry.countFor (Registry.set [] "app.alice.example.com" ⟨1⟩)
      "app.alice.example.com" ≤ 1 ∧
    authenticateRelayConnection cfg0 [("app.alice.example.com", ⟨9⟩)]
        (some "app") (some "alice") (some "k") (Except.ok [])
        (fun _ _ => Except.ok false) ⟨1⟩ false (Except.error "") =
      ⟨AuthOutcome.rejectedDuplicate, true, [], [("app.alice.example.com", ⟨9⟩)]⟩ ∧
    Registry.lookup (authAfterDuplicateCheck (authAfterDuplicateCheck []
        "app.alice.example.com" (some "k") (Except.ok [⟨7, "storedhash"⟩])
        (fun _ _ => Except.ok true) ⟨1⟩ false (Except.error "")).registry
        "app.alice.example.com" (some "k") (Except.ok [⟨7, "storedhash"⟩])
        (fun _ _ => Except.ok true) ⟨2⟩ false (Except.error "")).registry
      "app.alice.example.com" = some ⟨2⟩ := by
  have h := c1_registry_amended
  have h3 := h.2.2 [] "app.alice.example.com" (some "k")
    (Except.ok [⟨7, "storedhash"⟩]) (fun _ _ => Except.ok true) ⟨1⟩ ⟨2⟩
    false false (Except.error "") (Except.error "") rfl
  exact ⟨h.1 (Registry.set [] "app.alice.example.com" ⟨1⟩)
      (Registry.Reachable.set [] "app.alice.example.com" ⟨1⟩
        Registry.Reachable.init) "app.alice.example.com",
    h.2.1 cfg0 [("app.alice.example.com", ⟨9⟩)] (some "app") (some "alice")
      (some "k") (Except.ok []) (fun _ _ => Except.ok false) ⟨1⟩ false
      (Except.error "") (by decide),
    h3.2.2.2.2⟩

/-- Claim C2, counterexample: the close observer is
`() => this.relays.delete(hostname)` — it closes over the hostname only and
deletes unconditionally, with no comparison of the stored relay against the
relay whose channel closed.  Trace: relay 1 registers
`app.alice.example.com`, relay 2's registration overwrites the entry (the
stored relay is now relay 2); relay 1's channel then closes late, firing the
observer installed by relay 1's registration — and the entry of relay 2 is
removed even though the stored identity (2) does not match the closed relay
(1).  This refutes "removes the entry only if the stored relay identity
still matches ... no-op otherwise". -/
theorem c2_unregister_counterexample :
    Registry.lookup (Registry.set (Registry.set [] "app.alice.example.com" ⟨1⟩)
        "app.alice.example.com" ⟨2⟩) "app.alice.example.com" = some ⟨2⟩ ∧
    relayCloseHandler (Registry.set (Registry.set [] "app.alice.example.com" ⟨1⟩)
        "app.alice.example.com" ⟨2⟩) "app.alice.example.com" = [] ∧
    Registry.lookup (relayCloseHandler (Registry.set (Registry.set []
          "app.alice.example.com" ⟨1⟩) "app.alice.example.com" ⟨2⟩)
        "app.alice.example.com") "app.alice.example.com" = none :=
  ⟨rfl, rfl, rfl⟩

/-- Claim C2, amended: the close observer deletes the registry entry for its
hostname unconditionally — it does not compare the stored relay to the relay
whose channel closed, so a late close of a superseded relay removes the
newer relay's entry; entries under other hostnames are untouched. -/
theorem c2_unregister_amended (relays : Registry) (hostname : String) :
    Registry.lookup (relayCloseHandler relays hostname) hostname = none ∧
    (∀ h' : String, h' ≠ hostname →
      Registry.lookup (relayCloseHandler relays hostname) h' =
        Registry.lookup relays h') :=
  ⟨lookup_delete_self relays hostname,
    fun h' hne => lookup_delete_other relays hostname h' hne⟩

/-- Claim C2 (amended), witness: firing the close observer for `a.b.c` on a
two-entry registry removes the `a.b.c` entry and leaves `d.e.f` intact. -/
theorem c2_unregister_amended_witness :
    Registry.lookup (relayCloseHandler [("a.b.c", ⟨1⟩), ("d.e.f", ⟨2⟩)] "a.b.c")
      "a.b.c" = none ∧
    Registry.lookup (relayCloseHandler [("a.b.c", ⟨1⟩), ("d.e.f", ⟨2⟩)] "a.b.c")
      "d.e.f" = some ⟨2⟩ := by
  have h := c2_unregister_amended [("a.b.c", ⟨1⟩), ("d.e.f", ⟨2⟩)] "a.b.c"
  refine ⟨h.1, ?_⟩
  rw [h.2 "d.e.f" (by decide)]
  rfl

end SpaceKit
